import Mathlib

/-!
# Verification of the proof-challenge serialization and signing pipeline

Shallow embedding of `src/backend/signature_example.rs`: the schema types
`TokenDataId` and `MintProofChallenge`, the canonical (BCS) serialization of
those types, and the test's signing pipeline
(`generate_nft_tutorial_part4_signature`).

Modelling conventions:
* Rust `u8` bytes are `Nat` values; well-formedness requires them `< 256`.
* Rust `String` fields are modelled by their UTF-8 byte content as `List Nat`
  (BCS serializes a string exactly as its UTF-8 bytes with a length prefix;
  validity of the encoding is guaranteed by Rust's `String` type and is
  captured here by the byte-wise well-formedness predicate).
* `AccountAddress` (a 32-byte value in the source) is a byte list whose
  well-formedness requires length 32.
* The canonical encoder (the `bcs` crate) and the Ed25519 primitive
  (`aptos_crypto`) are external libraries not present in the repository;
  their behavior is modelled from the spec's §4.2 encoding rules and the
  spec's external-capability contract for `sign`/`verify`.
-/

/-- ULEB128 encoding of an unsigned integer: seven value bits per byte,
least-significant group first, high bit set on every byte except the last.
Modelled from the spec: the "compact variable-width integer encoding" used
by the external encoder for length prefixes. -/
def uleb128 (n : Nat) : List Nat :=
  if n < 128 then [n]
  else (n % 128 + 128) :: uleb128 (n / 128)
termination_by n
decreasing_by exact Nat.div_lt_self (by omega) (by omega)

/-- Modelled from the spec: encoding of a variable-length byte string
(`Vec<u8>`): ULEB128 length prefix followed by the raw bytes. -/
def serializeBytes (v : List Nat) : List Nat :=
  uleb128 v.length ++ v

/-- Modelled from the spec: encoding of a UTF-8 string (`String`): identical
to a byte string, over the string's UTF-8 bytes. -/
def serializeString (s : List Nat) : List Nat :=
  serializeBytes s

/-- Modelled from the spec: encoding of an unsigned 64-bit integer as exactly
8 bytes, little-endian (least-significant byte first). -/
def serializeU64 (n : Nat) : List Nat :=
  [n % 256, n / 256 % 256, n / 256 ^ 2 % 256, n / 256 ^ 3 % 256,
   n / 256 ^ 4 % 256, n / 256 ^ 5 % 256, n / 256 ^ 6 % 256, n / 256 ^ 7 % 256]

/-- Little-endian interpretation of a byte list (base-256, least-significant
byte first); used to state that `serializeU64` really is little-endian. -/
def leValue (bs : List Nat) : Nat :=
  bs.foldr (fun b acc => b + 256 * acc) 0

/-- The `aptos_types::account_address::AccountAddress` type: a fixed 32-byte
binary address. Well-formedness (`AccountAddress.WF`) carries the length-32 and
byte-range facts the Rust type `[u8; 32]` gives for free. -/
structure AccountAddress where
  bytes : List Nat
deriving DecidableEq

/-- The faithfulness constraints of the Rust `AccountAddress` type:
exactly 32 bytes, each a `u8`. -/
def AccountAddress.WF (a : AccountAddress) : Prop :=
  a.bytes.length = 32 ∧ a.bytes.all (· < 256) = true

instance (a : AccountAddress) : Decidable a.WF := by
  unfold AccountAddress.WF; infer_instance

/-- Modelled from the spec: a fixed-width binary address is encoded as its
raw fixed-size byte representation with no length prefix. -/
def AccountAddress.serialize (a : AccountAddress) : List Nat :=
  a.bytes

/-- From the source: `struct TokenDataId { creator: AccountAddress,
collection: Vec<u8>, name: Vec<u8> }`. String-typed data already arrives as
bytes (`String::into_bytes`) in the source, hence `List Nat` fields. -/
structure TokenDataId where
  creator : AccountAddress
  collection : List Nat
  name : List Nat
deriving DecidableEq

/-- Byte-range well-formedness of a `TokenDataId` (automatic in Rust). -/
def TokenDataId.WF (t : TokenDataId) : Prop :=
  t.creator.WF ∧ t.collection.all (· < 256) = true ∧ t.name.all (· < 256) = true

instance (t : TokenDataId) : Decidable t.WF := by
  unfold TokenDataId.WF; infer_instance

/-- BCS serialization of `TokenDataId` as derived by `#[derive(Serialize)]`:
fields in declared order, each with its own encoding. -/
def TokenDataId.serialize (t : TokenDataId) : List Nat :=
  t.creator.serialize ++ serializeBytes t.collection ++ serializeBytes t.name

/-- From the source: `struct MintProofChallenge`, the signed payload, with
fields in the declared (wire-contract) order. -/
structure MintProofChallenge where
  account_address : AccountAddress
  module_name : List Nat
  struct_name : List Nat
  receiver_account_sequence_number : Nat
  receiver_account_address : AccountAddress
  token_data_id : TokenDataId
deriving DecidableEq

/-- Well-formedness of a challenge: addresses are 32 bytes of `u8`s, the
string fields are byte sequences, and the sequence number fits in `u64`. -/
def MintProofChallenge.WF (m : MintProofChallenge) : Prop :=
  m.account_address.WF ∧
  m.module_name.all (· < 256) = true ∧
  m.struct_name.all (· < 256) = true ∧
  m.receiver_account_sequence_number < 2 ^ 64 ∧
  m.receiver_account_address.WF ∧
  m.token_data_id.WF

instance (m : MintProofChallenge) : Decidable m.WF := by
  unfold MintProofChallenge.WF; infer_instance

/-- BCS serialization of `MintProofChallenge` as derived by
`#[derive(Serialize)]`: fields in declared order, the nested `TokenDataId`
serialized by its own derived impl (inlined, not referenced). -/
def MintProofChallenge.serialize (m : MintProofChallenge) : List Nat :=
  m.account_address.serialize ++
  serializeString m.module_name ++
  serializeString m.struct_name ++
  serializeU64 m.receiver_account_sequence_number ++
  m.receiver_account_address.serialize ++
  m.token_data_id.serialize

/-- The error taxonomy of the encoder, from the spec's §7: `EncodingError`
covers a value violating a hard structural constraint. -/
inductive EncodingError where
  | invalidByte
deriving DecidableEq

/-- Modelled from the spec: the fallible entry point of the external encoder
(`bcs::to_bytes`), which "fails with `EncodingError` only if a value violates
a hard structural constraint (e.g., a string containing invalid encoding) —
otherwise always succeeds". In this model the structural constraints are the
byte-range and address-width constraints that the Rust types enforce. -/
def serializeBytesE (v : List Nat) : Except EncodingError (List Nat) :=
  if v.all (· < 256) then .ok (serializeBytes v) else .error .invalidByte

/-- Modelled from the spec: fallible encoding of a string field. -/
def serializeStringE (s : List Nat) : Except EncodingError (List Nat) :=
  if s.all (· < 256) then .ok (serializeString s) else .error .invalidByte

/-- Modelled from the spec: fallible encoding of an address. -/
def AccountAddress.serializeE (a : AccountAddress) :
    Except EncodingError (List Nat) :=
  if a.bytes.length == 32 && a.bytes.all (· < 256) then .ok a.serialize
  else .error .invalidByte

/-- Modelled from the spec: fallible encoding of a `TokenDataId`. -/
def TokenDataId.serializeE (t : TokenDataId) :
    Except EncodingError (List Nat) := do
  let c ← t.creator.serializeE
  let col ← serializeBytesE t.collection
  let nm ← serializeBytesE t.name
  pure (c ++ col ++ nm)

/-- Modelled from the spec: `bcs::to_bytes(&mint_proof)` — the fallible
canonical serialization of a whole challenge, as called by the source. -/
def MintProofChallenge.toBytes (m : MintProofChallenge) :
    Except EncodingError (List Nat) := do
  let a ← m.account_address.serializeE
  let mn ← serializeStringE m.module_name
  let sn ← serializeStringE m.struct_name
  let r ← m.receiver_account_address.serializeE
  let t ← m.token_data_id.serializeE
  pure (a ++ mn ++ sn ++
        serializeU64 m.receiver_account_sequence_number ++ r ++ t)

/-- Modelled from the spec: the external asymmetric signature capability
(`sign(message, key) -> Signature`, `verify(message, sig, key) -> bool`),
together with the scheme's contract that a signature produced with a private
key verifies under the corresponding public key. -/
structure SignatureScheme (PrivKey PubKey Sig : Type) where
  sign : List Nat → PrivKey → Sig
  verify : List Nat → Sig → PubKey → Bool
  keyPair : PubKey → PrivKey → Prop
  verify_sign : ∀ msg sk pk, keyPair pk sk →
    verify msg (sign msg sk) pk = true

/-- Modelled from the spec: the composite entry point
`sign_challenge(challenge, private_key) = sign(serialize(challenge), key)`. -/
def sign_challenge {K P G : Type} (S : SignatureScheme K P G)
    (m : MintProofChallenge) (k : K) : G :=
  S.sign m.serialize k

/-- The source's signing pipeline (`generate_nft_tutorial_part4_signature`,
lines 92–94): serialize the challenge with the fallible encoder, then sign
the unwrapped bytes (`sign_arbitrary_message` signs the exact message bytes).
`none` models the `unwrap` panic on an encoding error. -/
def generate_signature {K P G : Type} (S : SignatureScheme K P G)
    (m : MintProofChallenge) (k : K) : Option G :=
  match m.toBytes with
  | .ok msg => some (S.sign msg k)
  | .error _ => none

/-- A stub scheme satisfying the capability contract; used to instantiate
the scheme-generic theorems on concrete inputs. -/
def trivialScheme : SignatureScheme Unit Unit (List Nat) where
  sign := fun msg _ => msg
  verify := fun msg s _ => msg == s
  keyPair := fun _ _ => True
  verify_sign := by intro msg _ _ _; simp

/-- UTF-8 bytes of an ASCII string literal (for ASCII, each byte is the
character's code point), used to build the concrete test fixture. -/
def asciiBytes (s : String) : List Nat :=
  s.data.map Char.toNat

/-- The resource (signer) address hard-coded in the source test:
`0xa59fb4dbd377a7964283e911791e5b6f291236281d82e1ccfe24d331c5b64ef1`. -/
def goldenSignerAddress : AccountAddress :=
  ⟨[0xa5, 0x9f, 0xb4, 0xdb, 0xd3, 0x77, 0xa7, 0x96,
    0x42, 0x83, 0xe9, 0x11, 0x79, 0x1e, 0x5b, 0x6f,
    0x29, 0x12, 0x36, 0x28, 0x1d, 0x82, 0xe1, 0xcc,
    0xfe, 0x24, 0xd3, 0x31, 0xc5, 0xb6, 0x4e, 0xf1]⟩

/-- The NFT receiver address hard-coded in the source test:
`0xf8fa7e90680fef5402bf1820d1dac7cd4d18824a989375980bb1f9d7c9d373bc`. -/
def goldenReceiverAddress : AccountAddress :=
  ⟨[0xf8, 0xfa, 0x7e, 0x90, 0x68, 0x0f, 0xef, 0x54,
    0x02, 0xbf, 0x18, 0x20, 0xd1, 0xda, 0xc7, 0xcd,
    0x4d, 0x18, 0x82, 0x4a, 0x98, 0x93, 0x75, 0x98,
    0x0b, 0xb1, 0xf9, 0xd7, 0xc9, 0xd3, 0x73, 0xbc]⟩

/-- The `token_data_id` fixture built by the source test. -/
def goldenTokenDataId : TokenDataId :=
  { creator := goldenSignerAddress
    collection := asciiBytes "Collection name"
    name := asciiBytes "Token name" }

/-- The `mint_proof` fixture built by the source test. -/
def goldenChallenge : MintProofChallenge :=
  { account_address := goldenSignerAddress
    module_name := asciiBytes "create_nft_getting_production_ready"
    struct_name := asciiBytes "MintProofChallenge"
    receiver_account_sequence_number := 2
    receiver_account_address := goldenReceiverAddress
    token_data_id := goldenTokenDataId }

/-- The fixed byte string that serializing the source test's fixture yields
(computed once from the encoding rules; the "golden file"). -/
def goldenBytes : List Nat :=
  [165, 159, 180, 219, 211, 119, 167, 150, 66, 131, 233, 17, 121, 30, 91,
   111, 41, 18, 54, 40, 29, 130, 225, 204, 254, 36, 211, 49, 197, 182, 78,
   241, 35, 99, 114, 101, 97, 116, 101, 95, 110, 102, 116, 95, 103, 101,
   116, 116, 105, 110, 103, 95, 112, 114, 111, 100, 117, 99, 116, 105, 111,
   110, 95, 114, 101, 97, 100, 121, 18, 77, 105, 110, 116, 80, 114, 111,
   111, 102, 67, 104, 97, 108, 108, 101, 110, 103, 101, 2, 0, 0, 0, 0, 0,
   0, 0, 248, 250, 126, 144, 104, 15, 239, 84, 2, 191, 24, 32, 209, 218,
   199, 205, 77, 24, 130, 74, 152, 147, 117, 152, 11, 177, 249, 215, 201,
   211, 115, 188, 165, 159, 180, 219, 211, 119, 167, 150, 66, 131, 233, 17,
   121, 30, 91, 111, 41, 18, 54, 40, 29, 130, 225, 204, 254, 36, 211, 49,
   197, 182, 78, 241, 15, 67, 111, 108, 108, 101, 99, 116, 105, 111, 110,
   32, 110, 97, 109, 101, 10, 84, 111, 107, 101, 110, 32, 110, 97, 109, 101]

/-! ## Helper lemmas -/

/-- Unfolding `uleb128` below the one-byte threshold. -/
theorem uleb128_lt {n : Nat} (h : n < 128) : uleb128 n = [n] := by
  rw [uleb128]; simp [h]

/-- Unfolding `uleb128` at or above the one-byte threshold. -/
theorem uleb128_ge {n : Nat} (h : 128 ≤ n) :
    uleb128 n = (n % 128 + 128) :: uleb128 (n / 128) := by
  rw [uleb128]; simp [Nat.not_lt.2 h]

/-- ULEB128 is a prefix code: two framed streams that agree byte-for-byte
carry the same integer and the same tail. -/
theorem uleb128_append_inj :
    ∀ a b x y : _, uleb128 a ++ x = uleb128 b ++ y → a = b ∧ x = y := by
  intro a
  induction a using Nat.strong_induction_on with
  | _ a ih =>
    intro b x y h
    by_cases ha : a < 128
    · by_cases hb : b < 128
      · rw [uleb128_lt ha, uleb128_lt hb] at h
        simpa using h
      · rw [uleb128_lt ha, uleb128_ge (Nat.not_lt.1 hb)] at h
        simp only [List.cons_append, List.nil_append, List.cons.injEq] at h
        omega
    · by_cases hb : b < 128
      · rw [uleb128_ge (Nat.not_lt.1 ha), uleb128_lt hb] at h
        simp only [List.cons_append, List.nil_append, List.cons.injEq] at h
        omega
      · rw [uleb128_ge (Nat.not_lt.1 ha), uleb128_ge (Nat.not_lt.1 hb)] at h
        simp only [List.cons_append, List.cons.injEq] at h
        obtain ⟨hmod, htail⟩ := h
        have hdiv := ih (a / 128) (Nat.div_lt_self (by omega) (by omega))
          (b := b / 128) (x := x) (y := y) htail
        refine ⟨?_, hdiv.right⟩
        have := hdiv.left
        omega

/-- Length-prefixed byte strings frame unambiguously: equal framed streams
have equal payloads and equal tails. -/
theorem serializeBytes_append_inj {v w x y : List Nat}
    (h : serializeBytes v ++ x = serializeBytes w ++ y) :
    v = w ∧ x = y := by
  unfold serializeBytes at h
  rw [List.append_assoc, List.append_assoc] at h
  obtain ⟨hlen, hrest⟩ := uleb128_append_inj _ _ _ _ h
  exact List.append_inj hrest hlen

/-- The encoding `serializeU64` always yields exactly 8 bytes. -/
theorem serializeU64_length (n : Nat) : (serializeU64 n).length = 8 := rfl

/-- Two `u64` values with equal 8-byte encodings are equal. -/
theorem serializeU64_inj {a b : Nat} (ha : a < 2 ^ 64) (hb : b < 2 ^ 64)
    (h : serializeU64 a = serializeU64 b) : a = b := by
  simp only [serializeU64, List.cons.injEq, and_true] at h
  obtain ⟨h0, h1, h2, h3, h4, h5, h6, h7⟩ := h
  simp only [pow_succ, pow_zero, one_mul] at *
  omega

/-- For a well-formed challenge the fallible encoder succeeds and returns the
canonical serialization (the error branch is unreachable). -/
theorem toBytes_of_wf {m : MintProofChallenge} (hm : m.WF) :
    m.toBytes = .ok m.serialize := by
  obtain ⟨⟨ha1, ha2⟩, hmn, hsn, hseq, ⟨hr1, hr2⟩, ⟨⟨hc1, hc2⟩, hcol, hnm⟩⟩ := hm
  simp [MintProofChallenge.toBytes, MintProofChallenge.serialize,
    AccountAddress.serializeE, TokenDataId.serializeE, serializeStringE,
    serializeBytesE, AccountAddress.serialize, TokenDataId.serialize,
    serializeString, Bind.bind, Except.bind, Pure.pure, Except.pure,
    ha1, ha2, hmn, hsn, hr1, hr2, hc1, hc2, hcol, hnm]

/-- Framing without a tail: equal framed byte strings have equal payloads. -/
theorem serializeBytes_inj {v w : List Nat}
    (h : serializeBytes v = serializeBytes w) : v = w :=
  (serializeBytes_append_inj (x := []) (y := []) (by simpa using h)).1

/-! ## Claims -/

/-- C1: The composite signing operation is the composition of serialization
and signing: for every challenge `m` and private key `k` (and any signature
scheme satisfying the external-capability contract), the source pipeline
serializes `m`, and signs exactly the resulting byte string — no extra bytes
prepended, appended, or transformed — so it produces
`sign(serialize(m), k)`, i.e. `sign_challenge m k`. -/
theorem sign_challenge_composition {K P G : Type} (S : SignatureScheme K P G)
    (m : MintProofChallenge) (k : K) (hm : m.WF) :
    sign_challenge S m k = S.sign m.serialize k ∧
    generate_signature S m k = some (sign_challenge S m k) := by
  refine ⟨rfl, ?_⟩
  simp [generate_signature, sign_challenge, toBytes_of_wf hm]

/-- Witness for C1 at the source test's fixture and the stub scheme. -/
theorem sign_challenge_composition_witness :
    sign_challenge trivialScheme goldenChallenge () =
      trivialScheme.sign goldenChallenge.serialize () ∧
    generate_signature trivialScheme goldenChallenge () =
      some (sign_challenge trivialScheme goldenChallenge ()) :=
  sign_challenge_composition trivialScheme goldenChallenge () (by decide)

/-- C2: `serialize` emits the record's fields in declared order with the
nested `TokenDataId` fully inlined: the output is the concatenation of the
encodings of `account_address`, `module_name`, `struct_name`,
`receiver_account_sequence_number`, `receiver_account_address`, then the
embedded identifier's `creator`, `collection`, `name`, in exactly that
order, with no offsets or pointers. -/
theorem serialize_field_order (m : MintProofChallenge) :
    m.serialize =
      m.account_address.bytes ++
      serializeString m.module_name ++
      serializeString m.struct_name ++
      serializeU64 m.receiver_account_sequence_number ++
      m.receiver_account_address.bytes ++
      m.token_data_id.creator.bytes ++
      serializeBytes m.token_data_id.collection ++
      serializeBytes m.token_data_id.name := by
  simp [MintProofChallenge.serialize, TokenDataId.serialize,
    AccountAddress.serialize, List.append_assoc]

/-- C3: the unsigned 64-bit sequence number is encoded as exactly 8 bytes in
little-endian order within the serialized output: the encoding sits between
the preceding and following fields, has length 8, decodes little-endian to
the sequence number (mod `2^64`, the `u64` range), and e.g. sequence number
`2` encodes as bytes `02 00 00 00 00 00 00 00`. -/
theorem serialize_sequence_number_le (m : MintProofChallenge) :
    m.serialize =
      (m.account_address.bytes ++ serializeString m.module_name ++
        serializeString m.struct_name) ++
      serializeU64 m.receiver_account_sequence_number ++
      (m.receiver_account_address.bytes ++ m.token_data_id.serialize) ∧
    (serializeU64 m.receiver_account_sequence_number).length = 8 ∧
    leValue (serializeU64 m.receiver_account_sequence_number) =
      m.receiver_account_sequence_number % 2 ^ 64 ∧
    serializeU64 2 = [2, 0, 0, 0, 0, 0, 0, 0] := by
  refine ⟨by simp [MintProofChallenge.serialize, AccountAddress.serialize,
    List.append_assoc], rfl, ?_, by norm_num [serializeU64]⟩
  simp only [leValue, serializeU64, List.foldr]
  norm_num
  omega

/-- C4: every variable-length byte-string or string field is encoded as a
ULEB128 length prefix followed by the raw bytes (not a fixed 4- or 8-byte
count); at the prefix-width boundaries, lengths 0, 1, 127 take a one-byte
prefix (`0x00`, `0x01`, `0x7F`) and lengths 128 and 300 take a two-byte
prefix (`0x80 0x01` and `0xAC 0x02`). -/
theorem length_prefix_uleb128 (v : List Nat) :
    serializeBytes v = uleb128 v.length ++ v ∧
    serializeString v = uleb128 v.length ++ v ∧
    uleb128 0 = [0] ∧ uleb128 1 = [1] ∧ uleb128 127 = [127] ∧
    uleb128 128 = [128, 1] ∧ uleb128 300 = [172, 2] := by
  refine ⟨rfl, rfl, uleb128_lt (by norm_num), uleb128_lt (by norm_num),
    uleb128_lt (by norm_num), ?_, ?_⟩
  · rw [uleb128_ge (by norm_num)]
    norm_num [uleb128_lt]
  · rw [uleb128_ge (by norm_num)]
    norm_num [uleb128_lt]

/-- C5: each fixed-width binary address field (`account_address`,
`receiver_account_address`, and the embedded `creator`) is encoded as its
raw fixed-size 32-byte representation, with no length prefix, in the
serialized output. -/
theorem address_fields_raw (m : MintProofChallenge) (hm : m.WF) :
    m.serialize =
      m.account_address.bytes ++
      serializeString m.module_name ++
      serializeString m.struct_name ++
      serializeU64 m.receiver_account_sequence_number ++
      m.receiver_account_address.bytes ++
      m.token_data_id.creator.bytes ++
      serializeBytes m.token_data_id.collection ++
      serializeBytes m.token_data_id.name ∧
    m.account_address.bytes.length = 32 ∧
    m.receiver_account_address.bytes.length = 32 ∧
    m.token_data_id.creator.bytes.length = 32 := by
  obtain ⟨⟨ha1, -⟩, -, -, -, ⟨hr1, -⟩, ⟨⟨hc1, -⟩, -, -⟩⟩ := hm
  exact ⟨by simp [MintProofChallenge.serialize, TokenDataId.serialize,
    AccountAddress.serialize, List.append_assoc], ha1, hr1, hc1⟩

/-- Witness for C5 at the source test's fixture. -/
theorem address_fields_raw_witness :
    goldenChallenge.WF ∧
    (goldenChallenge.serialize =
      goldenChallenge.account_address.bytes ++
      serializeString goldenChallenge.module_name ++
      serializeString goldenChallenge.struct_name ++
      serializeU64 goldenChallenge.receiver_account_sequence_number ++
      goldenChallenge.receiver_account_address.bytes ++
      goldenChallenge.token_data_id.creator.bytes ++
      serializeBytes goldenChallenge.token_data_id.collection ++
      serializeBytes goldenChallenge.token_data_id.name ∧
    goldenChallenge.account_address.bytes.length = 32 ∧
    goldenChallenge.receiver_account_address.bytes.length = 32 ∧
    goldenChallenge.token_data_id.creator.bytes.length = 32) :=
  ⟨by decide, address_fields_raw goldenChallenge (by decide)⟩

/-- C6: serialization is deterministic — it is a pure function of the
challenge value, so two invocations on equal values yield identical byte
strings. -/
theorem serialize_deterministic (c₁ c₂ : MintProofChallenge) (h : c₁ = c₂) :
    c₁.serialize = c₂.serialize := by
  rw [h]

/-- Witness for C6 at the source test's fixture. -/
theorem serialize_deterministic_witness :
    goldenChallenge.serialize = goldenChallenge.serialize :=
  serialize_deterministic goldenChallenge goldenChallenge rfl

/-- C7: for every challenge built from valid byte content (the constraints
the Rust types enforce: byte-ranged strings and vectors, 32-byte addresses),
the fallible encoder returns `Ok` with the canonical serialization — the
error branch (the `unwrap` before signing) is unreachable. -/
theorem toBytes_ok_of_wf (m : MintProofChallenge) (hm : m.WF) :
    m.toBytes = Except.ok m.serialize :=
  toBytes_of_wf hm

/-- Witness for C7 at the source test's fixture. -/
theorem toBytes_ok_of_wf_witness :
    goldenChallenge.WF ∧
    goldenChallenge.toBytes = Except.ok goldenChallenge.serialize :=
  ⟨by decide, toBytes_ok_of_wf goldenChallenge (by decide)⟩

/-- C8: round-trip verification — for every challenge `c` and key pair where
the public key corresponds to the private key, verifying `serialize(c)`
against `sign_challenge(c, private_key)` succeeds, treating the signature
scheme's `sign`/`verify` as the specified external capability. -/
theorem round_trip_verification {K P G : Type} (S : SignatureScheme K P G)
    (c : MintProofChallenge) (k : K) (pk : P) (h : S.keyPair pk k) :
    S.verify c.serialize (sign_challenge S c k) pk = true :=
  S.verify_sign c.serialize k pk h

/-- Witness for C8 at the source test's fixture and the stub scheme. -/
theorem round_trip_verification_witness :
    trivialScheme.verify goldenChallenge.serialize
      (sign_challenge trivialScheme goldenChallenge ()) () = true :=
  round_trip_verification trivialScheme goldenChallenge () () trivial

set_option maxRecDepth 8192 in
/-- C9: on the concrete scenario hard-coded in the source test (signer
`0xa59f…4ef1`, module `"create_nft_getting_production_ready"`, struct
`"MintProofChallenge"`, sequence number 2, receiver `0xf8fa…73bc`, and the
`TokenDataId` with the signer as creator, collection `"Collection name"`,
name `"Token name"`), `serialize` produces exactly the fixed golden byte
string `goldenBytes`. -/
theorem golden_serialization : goldenChallenge.serialize = goldenBytes := by
  have h35 : uleb128 35 = [35] := uleb128_lt (by norm_num)
  have h18 : uleb128 18 = [18] := uleb128_lt (by norm_num)
  have h15 : uleb128 15 = [15] := uleb128_lt (by norm_num)
  have h10 : uleb128 10 = [10] := uleb128_lt (by norm_num)
  simp only [MintProofChallenge.serialize, TokenDataId.serialize,
    AccountAddress.serialize, serializeString, serializeBytes,
    goldenChallenge, goldenTokenDataId, goldenSignerAddress,
    goldenReceiverAddress,
    show (asciiBytes "create_nft_getting_production_ready").length = 35
      from rfl,
    show (asciiBytes "MintProofChallenge").length = 18 from rfl,
    show (asciiBytes "Collection name").length = 15 from rfl,
    show (asciiBytes "Token name").length = 10 from rfl,
    h35, h18, h15, h10]
  decide

/-- C10: serialization is injective on well-formed challenges: if two
challenges with 32-byte addresses, byte-ranged string content, and in-range
sequence numbers serialize to the same byte string, they are equal — the
length-prefixed, fixed-order encoding admits exactly one logical value per
byte string. -/
theorem serialize_injective (a b : MintProofChallenge)
    (ha : a.WF) (hb : b.WF) (h : a.serialize = b.serialize) : a = b := by
  obtain ⟨⟨a1⟩, a2, a3, a4, ⟨a5⟩, ⟨⟨a6⟩, a7, a8⟩⟩ := a
  obtain ⟨⟨b1⟩, b2, b3, b4, ⟨b5⟩, ⟨⟨b6⟩, b7, b8⟩⟩ := b
  simp only [MintProofChallenge.WF, AccountAddress.WF, TokenDataId.WF] at ha hb
  obtain ⟨⟨ha1, -⟩, -, -, ha4, ⟨ha5, -⟩, ⟨ha6, -⟩, -, -⟩ := ha
  obtain ⟨⟨hb1, -⟩, -, -, hb4, ⟨hb5, -⟩, ⟨hb6, -⟩, -, -⟩ := hb
  simp only [MintProofChallenge.serialize, TokenDataId.serialize,
    AccountAddress.serialize, serializeString, List.append_assoc] at h
  obtain ⟨e1, h⟩ := List.append_inj h (ha1.trans hb1.symm)
  obtain ⟨e2, h⟩ := serializeBytes_append_inj h
  obtain ⟨e3, h⟩ := serializeBytes_append_inj h
  obtain ⟨e4, h⟩ := List.append_inj h rfl
  obtain ⟨e5, h⟩ := List.append_inj h (ha5.trans hb5.symm)
  obtain ⟨e6, h⟩ := List.append_inj h (ha6.trans hb6.symm)
  obtain ⟨e7, h⟩ := serializeBytes_append_inj h
  have e8 := serializeBytes_inj h
  have e4' := serializeU64_inj ha4 hb4 e4
  subst e1 e2 e3 e4' e5 e6 e7 e8
  rfl

/-- Witness for C10 at the source test's fixture. -/
theorem serialize_injective_witness : goldenChallenge = goldenChallenge :=
  serialize_injective goldenChallenge goldenChallenge
    (by decide) (by decide) rfl
